import Mathlib

/-!
Verification development for `src/gpt-auto-generator/gpt-auto-generator.c`
(systemd-gpt-auto-generator).  The definitions below are a shallow embedding
of the generator's pure decision logic: the partition-classification loop of
`enumerate_partitions`, the descriptor emission of `add_mount` /
`add_cryptsetup` / `add_automount`, the `/boot` validation of `add_boot`, the
busy check `path_is_busy`, the result accumulation of the enumeration pass,
and the exit-status logic of `main`.  External collaborators (blkid probing,
udev enumeration, EFI variable access, the filesystem) are represented by
explicit inputs carrying their observable outcomes.
-/

namespace GptAuto

/-- `ENOENT` errno value; `path_is_mount_point` and
`efi_loader_get_device_part_uuid` report "does not exist" as `-ENOENT`. -/
def ENOENT : Int := 2

/-- From gpt.h: `GPT_FLAG_READ_ONLY = 1ULL << 60`. -/
def GPT_FLAG_READ_ONLY : Nat := 2 ^ 60

/-- From gpt.h: `GPT_FLAG_NO_AUTO = 1ULL << 63`. -/
def GPT_FLAG_NO_AUTO : Nat := 2 ^ 63

/-- C bit test `flags & bit` (nonzero means set). -/
def hasFlag (flags bit : Nat) : Bool := flags.land bit != 0

/-- Result of parsing a partition's type GUID (`sd_id128_from_string` on
`blkid_partition_get_type_string`) classified by the equality chain in
`enumerate_partitions`: `GPT_SWAP`, `GPT_ESP`, `GPT_HOME`, `GPT_SRV`, or any
other GUID. -/
inductive GptType
  | gptSwap
  | gptEsp
  | gptHome
  | gptSrv
  | gptOther
deriving DecidableEq

/-- One sibling partition as seen by the loop body of `enumerate_partitions`
after the udev/blkid plumbing succeeded: its partition number
(`blkid_partition_get_partno`), parsed type GUID, 64-bit GPT attribute flags
(`blkid_partition_get_flags`) and device node path. -/
structure Candidate where
  nr : Int
  typeId : GptType
  flags : Nat
  node : String
deriving DecidableEq

/-- The mutable locals of `enumerate_partitions` that the classification loop
updates: the current winner (device node) and its partition number for the
ESP/home/srv roles, the derived rw flags, and the list of nodes passed to
`add_swap` (in scan order). -/
structure ScanState where
  boot : Option String
  boot_nr : Int
  home : Option String
  home_nr : Int
  home_rw : Bool
  srv : Option String
  srv_nr : Int
  srv_rw : Bool
  swapAdds : List String
deriving DecidableEq

/-- Initial values of the locals in `enumerate_partitions`:
`boot = home = srv = NULL`, `boot_nr = home_nr = srv_nr = -1`,
`home_rw = srv_rw = true`. -/
def initScanState : ScanState :=
  { boot := none, boot_nr := -1,
    home := none, home_nr := -1, home_rw := true,
    srv := none, srv_nr := -1, srv_rw := true,
    swapAdds := [] }

/-- One iteration of the `udev_list_entry_foreach` loop in
`enumerate_partitions` (lines 689-795), restricted to its effect on the
classification state: skip on negative partition number, then dispatch on the
type GUID.  Swap candidates are dropped when `GPT_FLAG_NO_AUTO` or
`GPT_FLAG_READ_ONLY` is set, otherwise `add_swap` is invoked; the ESP branch
ignores the flags entirely and keeps the candidate only when there is no
current winner or its number is strictly smaller (`boot && nr >= boot_nr`
skips); home and srv additionally drop `GPT_FLAG_NO_AUTO` candidates and
record `home_rw`/`srv_rw` as the negation of `GPT_FLAG_READ_ONLY`. -/
def scanOne (st : ScanState) (c : Candidate) : ScanState :=
  if c.nr < 0 then st
  else
    match c.typeId with
    | .gptSwap =>
        if hasFlag c.flags GPT_FLAG_NO_AUTO then st
        else if hasFlag c.flags GPT_FLAG_READ_ONLY then st
        else { st with swapAdds := st.swapAdds ++ [c.node] }
    | .gptEsp =>
        if st.boot.isSome ∧ st.boot_nr ≤ c.nr then st
        else { st with boot := some c.node, boot_nr := c.nr }
    | .gptHome =>
        if hasFlag c.flags GPT_FLAG_NO_AUTO then st
        else if st.home.isSome ∧ st.home_nr ≤ c.nr then st
        else { st with home := some c.node, home_nr := c.nr,
                       home_rw := !hasFlag c.flags GPT_FLAG_READ_ONLY }
    | .gptSrv =>
        if hasFlag c.flags GPT_FLAG_NO_AUTO then st
        else if st.srv.isSome ∧ st.srv_nr ≤ c.nr then st
        else { st with srv := some c.node, srv_nr := c.nr,
                       srv_rw := !hasFlag c.flags GPT_FLAG_READ_ONLY }
    | .gptOther => st

/-- The whole classification loop of `enumerate_partitions` over the
enumerated sibling list. -/
def enumerate_partitions_scan (l : List Candidate) : ScanState :=
  l.foldl scanOne initScanState

/-- Generic single step of the "first partition with the lowest number wins"
rule shared by the ESP/home/srv branches: an existing winner is kept unless
the new candidate's number is strictly smaller. -/
def selStep {α : Type} (acc : Option (α × Int)) (x : α × Int) : Option (α × Int) :=
  match acc with
  | none => some x
  | some b => if b.2 ≤ x.2 then some b else some x

/-- Folding the selection rule over a candidate list. -/
def minSel {α : Type} (l : List (α × Int)) : Option (α × Int) :=
  l.foldl selStep none

/-- The (winner, partition number) view of the scan state for the boot role. -/
def bootAcc (st : ScanState) : Option (String × Int) :=
  st.boot.map (fun n => (n, st.boot_nr))

/-- The ((winner, rw), partition number) view for the home role. -/
def homeAcc (st : ScanState) : Option ((String × Bool) × Int) :=
  st.home.map (fun n => ((n, st.home_rw), st.home_nr))

/-- The ((winner, rw), partition number) view for the srv role. -/
def srvAcc (st : ScanState) : Option ((String × Bool) × Int) :=
  st.srv.map (fun n => ((n, st.srv_rw), st.srv_nr))

/-- Candidacy for the boot role: nonnegative partition number and ESP type
GUID (no flag is consulted in the ESP branch). -/
def espCand (c : Candidate) : Bool :=
  decide (0 ≤ c.nr) && decide (c.typeId = GptType.gptEsp)

/-- Candidacy for the home role: nonnegative partition number, home type
GUID, and `GPT_FLAG_NO_AUTO` clear. -/
def homeCand (c : Candidate) : Bool :=
  decide (0 ≤ c.nr) && decide (c.typeId = GptType.gptHome)
    && !hasFlag c.flags GPT_FLAG_NO_AUTO

/-- Candidacy for the srv role: nonnegative partition number, srv type GUID,
and `GPT_FLAG_NO_AUTO` clear. -/
def srvCand (c : Candidate) : Bool :=
  decide (0 ≤ c.nr) && decide (c.typeId = GptType.gptSrv)
    && !hasFlag c.flags GPT_FLAG_NO_AUTO

/-- `USEC_PER_SEC` from time-util.h. -/
def USEC_PER_SEC : Nat := 1000000

/-- `SPECIAL_LOCAL_FS_TARGET` from special.h. -/
def SPECIAL_LOCAL_FS_TARGET : String := "local-fs.target"

/-- `SPECIAL_SWAP_TARGET` from special.h. -/
def SPECIAL_SWAP_TARGET : String := "swap.target"

/-- Modelled from the spec: `unit_name_escape` (systemd unit-name helper, not
under src/).  The spec only requires a deterministic identity-scoped encoding
of a name, modelled as the identity map. -/
def unit_name_escape (s : String) : String := s

/-- Modelled from the spec: `unit_name_from_path` (systemd unit-name helper,
not under src/).  The spec only requires a deterministic unit name derived
from the path plus the given unit-type suffix. -/
def unit_name_from_path (p : String) (suffix : String) : String :=
  unit_name_escape p ++ suffix

/-- The artifacts written by `add_cryptsetup` (lines 58-161) for an encrypted
(LUKS) winner: the `systemd-cryptsetup@<id>.service` unit with `TimeoutSec=0`
bound to and ordered after the raw partition's device unit, the three
dependency symlinks (device `.wants`, `cryptsetup.target.requires`, and the
mapped device's `.device.requires` edge onto the unlock service), the
`50-job-timeout-sec-0.conf` drop-in with `JobTimeoutSec=0` for the mapped
device, and the returned mapped device path `/dev/mapper/<id>`. -/
structure CryptsetupResult where
  serviceUnit : String
  deviceUnit : String
  timeoutSec : Nat
  cryptsetupReadOnlyArg : String
  deviceWantsLink : String
  cryptsetupTargetRequiresLink : String
  mapperDeviceRequiresLink : String
  dropInPath : String
  jobTimeoutSec : Nat
  device : String
deriving DecidableEq

/-- Embedding of `add_cryptsetup(id, what, rw, &device)` on its success path
(all allocations and writes succeed). -/
def add_cryptsetup (dest id what : String) (rw : Bool) : CryptsetupResult :=
  let d := unit_name_from_path what ".device"
  let e := unit_name_escape id
  let n := "systemd-cryptsetup@" ++ e ++ ".service"
  { serviceUnit := n
    deviceUnit := d
    timeoutSec := 0
    cryptsetupReadOnlyArg := if rw then "" else "read-only"
    deviceWantsLink := dest ++ "/" ++ d ++ ".wants/" ++ n
    cryptsetupTargetRequiresLink := dest ++ "/cryptsetup.target.requires/" ++ n
    mapperDeviceRequiresLink := dest ++ "/dev-mapper-" ++ e ++ ".device.requires/" ++ n
    dropInPath := dest ++ "/dev-mapper-" ++ e ++ ".device.d/50-job-timeout-sec-0.conf"
    jobTimeoutSec := 0
    device := "/dev/mapper/" ++ id }

/-- The `[Mount]` unit written by `add_mount` (lines 163-250): unit name, the
`What=`/`Where=` lines, the optional `Type=` line, the `Options=` line, the
optional `Before=` milestone and the `.requires` symlink materializing it. -/
structure MountFields where
  unit : String
  what : String
  whereDir : String
  fstype : Option String
  optionsLine : String
  beforeTarget : Option String
  requiresLink : Option String
deriving DecidableEq

/-- A declarative artifact emitted by the generator for one role. -/
inductive Descriptor
  | cryptoUnlock (c : CryptsetupResult)
  | mount (m : MountFields)
deriving DecidableEq

/-- The `Options=` value written by `add_mount` (lines 230-233):
`options ++ "," ++ (rw ? "rw" : "ro")` when an options string is given,
otherwise just `rw`/`ro`. -/
def mountOptions (options : Option String) (rw : Bool) : String :=
  match options with
  | some o => o ++ "," ++ (if rw then "rw" else "ro")
  | none => if rw then "rw" else "ro"

/-- Embedding of `add_mount(id, what, where, fstype, rw, options, description,
post)` on its success path, as the list of descriptors it emits.  When the
probed fstype is `crypto_LUKS` (line 184) it first runs `add_cryptsetup`,
then retargets `what` at the returned mapped device and clears the fstype
hint (lines 190-191). -/
def add_mount (dest id what whereDir : String) (fstype : Option String)
    (rw : Bool) (options : Option String) (post : Option String) :
    List Descriptor :=
  let cr : Option CryptsetupResult :=
    if fstype = some "crypto_LUKS" then some (add_cryptsetup dest id what rw)
    else none
  let what2 := match cr with
    | some c => c.device
    | none => what
  let fstype2 : Option String :=
    if fstype = some "crypto_LUKS" then none else fstype
  let unit := unit_name_from_path whereDir ".mount"
  let m : MountFields :=
    { unit := unit
      what := what2
      whereDir := whereDir
      fstype := fstype2
      optionsLine := mountOptions options rw
      beforeTarget := post
      requiresLink := post.map (fun t => dest ++ "/" ++ t ++ ".requires/" ++ unit) }
  match cr with
  | some c => [.cryptoUnlock c, .mount m]
  | none => [.mount m]

/-- Outcome of `blkid_do_safeprobe`: `0` success, `-2` or `1` no result /
uncertain, anything else a hard error. -/
inductive ProbeOutcome
  | ok
  | noResult
  | hardError (e : Int)
deriving DecidableEq

/-- Embedding of `probe_and_add_mount` (lines 274-329) as the descriptors it
emits: nothing when the target path is busy or the superblock probe is
uncertain or fails, otherwise `add_mount` with the probed fstype, no extra
options and the given milestone. -/
def probe_and_add_mount (dest id what whereDir : String) (rw : Bool)
    (busy : Bool) (probe : ProbeOutcome) (fstype : Option String)
    (post : Option String) : List Descriptor :=
  if busy then []
  else
    match probe with
    | .noResult => []
    | .hardError _ => []
    | .ok => add_mount dest id what whereDir fstype rw none post

/-- Embedding of `path_is_busy` (lines 252-272).  `mpRes` is the return of
`path_is_mount_point(where, AT_SYMLINK_FOLLOW)` (positive: is a mount point,
`0`: not a mount point, negative: `-errno`); `de` is the return of
`dir_is_empty(where)` (positive: empty, `0`: has entries, negative:
`-errno`). -/
def path_is_busy (mpRes de : Int) : Bool :=
  if 0 < mpRes then false
  else if mpRes = -ENOENT then false
  else if mpRes < 0 then true
  else if de ≤ 0 then true
  else false

/-- The spec's busy classification, stated from its words (§4.5 / claim C6):
busy when already an active mount point, or when the status check errors
(other than nonexistence), or when not a mount point but a non-empty
directory; a nonexistent path is not busy. -/
def busySpec (mpRes de : Int) : Bool :=
  if 0 < mpRes then true
  else if mpRes = -ENOENT then false
  else if mpRes < 0 then true
  else if de ≤ 0 then true
  else false

/-- Outcome of `efi_loader_get_device_part_uuid` in `add_boot`: the firmware
reported the boot partition GUID, or `-ENOENT` (loader partition unknown), or
some other error. -/
inductive LoaderUuid
  | found (idv : Nat)
  | unknown
  | ioError (e : Int)
deriving DecidableEq

/-- The external observations consumed by `add_boot` (lines 462-557):
environment predicates, the `/boot` fstab/busy checks, the firmware-reported
boot partition GUID, the partition-table probe outcome, and the `TYPE` and
`PART_ENTRY_UUID` lookups (absent when `blkid_probe_lookup_value` fails). -/
structure BootEnv where
  isEfiBoot : Bool
  inInitrd : Bool
  inContainer : Bool
  fstabHasBoot : Bool
  bootBusy : Bool
  loader : LoaderUuid
  probe : ProbeOutcome
  fstype : Option String
  partUuid : Option String

/-- The automount descriptor emitted by `add_boot` via `add_automount`
(lines 547-554 and 386-460): the ESP device, `/boot`, `vfat`, the mount's
options line (built from `umask=0077` plus the `,noauto` added by
`add_automount` and the rw suffix), and `TimeoutIdleSec` in seconds. -/
structure BootAutomount where
  what : String
  whereDir : String
  fstype : String
  options : String
  timeoutIdleSec : Nat
deriving DecidableEq

/-- Result of `add_boot`: skipped (returns 0 with no descriptor), a hard
failure (negative return), undefined behavior (`streq` applied to the NULL
`fstype` at line 526), or the automount descriptor. -/
inductive BootOutcome
  | skipped
  | failed (e : Int)
  | crash
  | emitted (a : BootAutomount)
deriving DecidableEq

/-- Embedding of `add_boot(what)` (lines 462-557).  `parse` stands for
`sd_id128_from_string` (none when it returns a negative value).  The steps
follow the source order: EFI/initrd/container/fstab/busy guards, the loader
GUID read, the partition probe, the `streq(fstype, "vfat")` check — which is
undefined when the `TYPE` lookup produced no value, since `fstype` is then
NULL — the `PART_ENTRY_UUID` lookup, its parse, and the exact GUID equality
check. -/
def add_boot (parse : String → Option Nat) (what : String) (env : BootEnv) :
    BootOutcome :=
  if !env.isEfiBoot then .skipped
  else if env.inInitrd then .skipped
  else if env.inContainer then .skipped
  else if env.fstabHasBoot then .skipped
  else if env.bootBusy then .skipped
  else
    match env.loader with
    | .unknown => .skipped
    | .ioError e => .failed e
    | .found idv =>
      match env.probe with
      | .noResult => .skipped
      | .hardError e => .failed e
      | .ok =>
        match env.fstype with
        | none => .crash
        | some t =>
          if t ≠ "vfat" then .skipped
          else
            match env.partUuid with
            | none => .skipped
            | some u =>
              match parse u with
              | none => .skipped
              | some tid =>
                if tid = idv then
                  .emitted
                    { what := what
                      whereDir := "/boot"
                      fstype := "vfat"
                      options := mountOptions (some ("umask=0077" ++ ",noauto")) true
                      timeoutIdleSec := 120 * USEC_PER_SEC / USEC_PER_SEC }
                else .skipped

/-- The externally determined results of the per-role processing calls made
by `enumerate_partitions`: `add_swap` per device node, and the post-loop
`add_boot` / `probe_and_add_mount` calls (negative means hard failure). -/
structure EnumEffects where
  swapRes : String → Int
  bootRes : Int
  homeRes : Int
  srvRes : Int

/-- The classification state of `enumerate_partitions` together with its
accumulated result variable `r`. -/
structure EnumState where
  scan : ScanState
  res : Int
deriving DecidableEq

/-- One loop iteration of `enumerate_partitions` including its effect on the
result variable `r`.  In the swap branch the source runs `k = add_swap(node);
if (k < 0) r = k;`.  In the ESP/home/srv update branches the source runs
`r = free_and_strdup(&X, subnode); if (r < 0) return log_oom();` — on the
success path (allocation succeeds) `free_and_strdup` returns 1 here, since
the stored value changes, so the assignment overwrites `r` with 1. -/
def scanOneR (eff : EnumEffects) (s : EnumState) (c : Candidate) : EnumState :=
  if c.nr < 0 then s
  else
    match c.typeId with
    | .gptSwap =>
        if hasFlag c.flags GPT_FLAG_NO_AUTO then s
        else if hasFlag c.flags GPT_FLAG_READ_ONLY then s
        else
          { scan := { s.scan with swapAdds := s.scan.swapAdds ++ [c.node] },
            res := if eff.swapRes c.node < 0 then eff.swapRes c.node else s.res }
    | .gptEsp =>
        if s.scan.boot.isSome ∧ s.scan.boot_nr ≤ c.nr then s
        else
          { scan := { s.scan with boot := some c.node, boot_nr := c.nr },
            res := 1 }
    | .gptHome =>
        if hasFlag c.flags GPT_FLAG_NO_AUTO then s
        else if s.scan.home.isSome ∧ s.scan.home_nr ≤ c.nr then s
        else
          { scan := { s.scan with home := some c.node, home_nr := c.nr,
                                  home_rw := !hasFlag c.flags GPT_FLAG_READ_ONLY },
            res := 1 }
    | .gptSrv =>
        if hasFlag c.flags GPT_FLAG_NO_AUTO then s
        else if s.scan.srv.isSome ∧ s.scan.srv_nr ≤ c.nr then s
        else
          { scan := { s.scan with srv := some c.node, srv_nr := c.nr,
                                  srv_rw := !hasFlag c.flags GPT_FLAG_READ_ONLY },
            res := 1 }
    | .gptOther => s

/-- The final result of `enumerate_partitions` (lines 689-815): fold the loop
starting from `r = 0` (the successful `udev_enumerate_scan_devices`), then
run `add_boot` / `probe_and_add_mount` for each recorded winner, each via
`k = ...; if (k < 0) r = k;`. -/
def enumerate_partitions_res (eff : EnumEffects) (l : List Candidate) : Int :=
  let s := l.foldl (scanOneR eff) { scan := initScanState, res := 0 }
  let r1 := if s.scan.boot.isSome then
      (if eff.bootRes < 0 then eff.bootRes else s.res) else s.res
  let r2 := if s.scan.home.isSome then
      (if eff.homeRes < 0 then eff.homeRes else r1) else r1
  let r3 := if s.scan.srv.isSome then
      (if eff.srvRes < 0 then eff.srvRes else r2) else r2
  r3

/-- `EXIT_SUCCESS`. -/
def EXIT_SUCCESS : Nat := 0

/-- `EXIT_FAILURE`. -/
def EXIT_FAILURE : Nat := 1

/-- The external observations consumed by `main` (lines 901-943): container
detection, the effective kernel-command-line switches, initrd detection, and
the results of `add_root_mount` and `add_mounts`. -/
structure MainEnv where
  inContainer : Bool
  enabled : Bool
  rootEnabled : Bool
  inInitrd : Bool
  rootMountRes : Int
  addMountsRes : Int

/-- Embedding of `main` (lines 901-943) as the process exit status.
`argc > 1 && argc != 4` is a usage error returning `EXIT_FAILURE` before any
probing; a container or a disabled switch exits `EXIT_SUCCESS`; otherwise
`r = add_root_mount()` when root detection is enabled, then outside the
initrd `k = add_mounts(); if (k < 0) r = k;`, and the exit status is
`r < 0 ? EXIT_FAILURE : EXIT_SUCCESS`. -/
def main_model (argc : Nat) (env : MainEnv) : Nat :=
  if argc > 1 ∧ argc ≠ 4 then EXIT_FAILURE
  else if env.inContainer then EXIT_SUCCESS
  else if !env.enabled then EXIT_SUCCESS
  else
    let r : Int := if env.rootEnabled then env.rootMountRes else 0
    let r2 : Int := if !env.inInitrd then
        (if env.addMountsRes < 0 then env.addMountsRes else r) else r
    if r2 < 0 then EXIT_FAILURE else EXIT_SUCCESS

/-- The five on-disk artifact kinds the generator writes. -/
inductive Artifact
  | mountUnit
  | swapUnit
  | automountUnit
  | cryptsetupUnit
  | deviceDropIn
deriving DecidableEq

/-- How each artifact is opened for writing in the source: the mount unit
(line 202), swap unit (line 357), automount unit (line 431) and cryptsetup
service unit (line 84) use `fopen(p, "wxe")`; the device drop-in is written
with `write_string_file(p, ..., WRITE_STRING_FILE_CREATE)` (line 147), whose
underlying open is `"we"` — create or truncate, no `O_EXCL`. -/
def openMode : Artifact → String
  | .mountUnit => "wxe"
  | .swapUnit => "wxe"
  | .automountUnit => "wxe"
  | .cryptsetupUnit => "wxe"
  | .deviceDropIn => "we"

/-- An artifact's creation is exclusive exactly when its open mode carries
the `x` flag (`O_EXCL`). -/
def exclusiveCreate (a : Artifact) : Bool := (openMode a).toList.contains 'x'

/-- Outcome of writing an artifact when a file of the same identity may
already exist at the intake location: exclusive create fails with `EEXIST`,
a plain create silently truncates and rewrites. -/
inductive CreateOutcome
  | failedExists
  | wrote
deriving DecidableEq

/-- Creating artifact `a` when `existsOnDisk` says whether an artifact of the
same identity is already present. -/
def createArtifact (existsOnDisk : Bool) (a : Artifact) : CreateOutcome :=
  if existsOnDisk ∧ exclusiveCreate a then .failedExists else .wrote

theorem foldl_selStep_some {α : Type} (l : List (α × Int)) (b : α × Int) :
    ∃ w, l.foldl selStep (some b) = some w ∧ (w = b ∨ w ∈ l) ∧ w.2 ≤ b.2 ∧
      ∀ x ∈ l, w.2 ≤ x.2 := by
  induction l generalizing b with
  | nil => exact ⟨b, rfl, Or.inl rfl, le_refl _, by simp⟩
  | cons x l ih =>
    simp only [List.foldl_cons]
    by_cases h : b.2 ≤ x.2
    · obtain ⟨w, hw, hmem, hle, hall⟩ := ih b
      have hstep : selStep (some b) x = some b := by simp [selStep, h]
      refine ⟨w, by rw [hstep]; exact hw, ?_, hle, ?_⟩
      · rcases hmem with h1 | h1
        · exact Or.inl h1
        · exact Or.inr (List.mem_cons_of_mem _ h1)
      · intro y hy
        rcases List.mem_cons.mp hy with rfl | hy
        · exact le_trans hle h
        · exact hall y hy
    · obtain ⟨w, hw, hmem, hle, hall⟩ := ih x
      have hstep : selStep (some b) x = some x := by simp [selStep, h]
      have hxb : x.2 ≤ b.2 := le_of_not_le h
      refine ⟨w, by rw [hstep]; exact hw, ?_, le_trans hle hxb, ?_⟩
      · rcases hmem with h1 | h1
        · exact Or.inr (h1 ▸ List.mem_cons_self x l)
        · exact Or.inr (List.mem_cons_of_mem _ h1)
      · intro y hy
        rcases List.mem_cons.mp hy with rfl | hy
        · exact hle
        · exact hall y hy

theorem minSel_eq_none {α : Type} (l : List (α × Int)) :
    minSel l = none ↔ l = [] := by
  cases l with
  | nil => simp [minSel]
  | cons x l =>
    simp only [minSel, List.foldl_cons]
    have hstep : selStep (none : Option (α × Int)) x = some x := rfl
    rw [hstep]
    obtain ⟨w, hw, -, -, -⟩ := foldl_selStep_some l x
    simp [hw]

theorem minSel_spec {α : Type} {l : List (α × Int)} {w : α × Int}
    (h : minSel l = some w) : w ∈ l ∧ ∀ x ∈ l, w.2 ≤ x.2 := by
  cases l with
  | nil => simp [minSel] at h
  | cons x l =>
    simp only [minSel, List.foldl_cons] at h
    have hstep : selStep (none : Option (α × Int)) x = some x := rfl
    rw [hstep] at h
    obtain ⟨w2, hw, hmem, hle, hall⟩ := foldl_selStep_some l x
    rw [hw] at h
    obtain rfl : w2 = w := Option.some.inj h
    constructor
    · rcases hmem with h1 | h1
      · exact h1 ▸ List.mem_cons_self x l
      · exact List.mem_cons_of_mem _ h1
    · intro y hy
      rcases List.mem_cons.mp hy with rfl | hy
      · exact hle
      · exact hall y hy

theorem minSel_perm {α : Type} {l l2 : List (α × Int)} (hp : l.Perm l2)
    (hn : (l.map Prod.snd).Nodup) : minSel l = minSel l2 := by
  cases hl : minSel l with
  | none =>
    rw [minSel_eq_none] at hl
    subst hl
    have : l2 = [] := hp.symm.eq_nil
    subst this
    rfl
  | some w =>
    obtain ⟨hwmem, hwmin⟩ := minSel_spec hl
    cases hl2 : minSel l2 with
    | none =>
      rw [minSel_eq_none] at hl2
      subst hl2
      have : l = [] := hp.eq_nil
      subst this
      simp at hwmem
    | some w2 =>
      obtain ⟨hw2mem, hw2min⟩ := minSel_spec hl2
      have h1 : w2 ∈ l := hp.mem_iff.mpr hw2mem
      have h2 : w ∈ l2 := hp.mem_iff.mp hwmem
      have e1 : w.2 ≤ w2.2 := hwmin w2 h1
      have e2 : w2.2 ≤ w.2 := hw2min w h2
      have : w = w2 :=
        List.inj_on_of_nodup_map hn hwmem h1 (le_antisymm e1 e2)
      rw [this]

theorem bootAcc_scanOne (st : ScanState) (c : Candidate) :
    bootAcc (scanOne st c) =
      if espCand c then selStep (bootAcc st) (c.node, c.nr) else bootAcc st := by
  by_cases hnr : c.nr < 0
  · have : espCand c = false := by
      simp [espCand, not_le.mpr hnr]
    simp [scanOne, hnr, this]
  · cases hty : c.typeId with
    | gptEsp =>
      have hc : espCand c = true := by
        simp [espCand, hty, not_lt.mp hnr]
      cases hb : st.boot with
      | none =>
        simp [scanOne, hnr, hty, hc, hb, bootAcc, selStep]
      | some nb =>
        by_cases hcmp : st.boot_nr ≤ c.nr
        · simp [scanOne, hnr, hty, hc, hb, hcmp, bootAcc, selStep]
        · simp [scanOne, hnr, hty, hc, hb, hcmp, bootAcc, selStep]
    | gptSwap =>
      have hc : espCand c = false := by simp [espCand, hty]
      simp only [scanOne, hty, if_neg hnr, hc, if_false]
      by_cases h1 : hasFlag c.flags GPT_FLAG_NO_AUTO <;>
        by_cases h2 : hasFlag c.flags GPT_FLAG_READ_ONLY <;>
        simp [h1, h2, bootAcc]
    | gptHome =>
      have hc : espCand c = false := by simp [espCand, hty]
      simp only [scanOne, hty, if_neg hnr, hc, if_false]
      by_cases h1 : hasFlag c.flags GPT_FLAG_NO_AUTO <;>
        by_cases h2 : st.home.isSome ∧ st.home_nr ≤ c.nr <;>
        simp [h1, h2, bootAcc]
    | gptSrv =>
      have hc : espCand c = false := by simp [espCand, hty]
      simp only [scanOne, hty, if_neg hnr, hc, if_false]
      by_cases h1 : hasFlag c.flags GPT_FLAG_NO_AUTO <;>
        by_cases h2 : st.srv.isSome ∧ st.srv_nr ≤ c.nr <;>
        simp [h1, h2, bootAcc]
    | gptOther =>
      have hc : espCand c = false := by simp [espCand, hty]
      simp [scanOne, hnr, hty, hc]

theorem homeAcc_scanOne (st : ScanState) (c : Candidate) :
    homeAcc (scanOne st c) =
      if homeCand c then
        selStep (homeAcc st) ((c.node, !hasFlag c.flags GPT_FLAG_READ_ONLY), c.nr)
      else homeAcc st := by
  by_cases hnr : c.nr < 0
  · have : homeCand c = false := by
      simp [homeCand, not_le.mpr hnr]
    simp [scanOne, hnr, this]
  · cases hty : c.typeId with
    | gptHome =>
      by_cases h1 : hasFlag c.flags GPT_FLAG_NO_AUTO
      · have hc : homeCand c = false := by simp [homeCand, h1]
        simp [scanOne, hnr, hty, h1, hc]
      · have hc : homeCand c = true := by
          simp [homeCand, hty, not_lt.mp hnr, h1]
        cases hb : st.home with
        | none =>
          simp [scanOne, hnr, hty, h1, hc, hb, homeAcc, selStep]
        | some nh =>
          by_cases hcmp : st.home_nr ≤ c.nr
          · simp [scanOne, hnr, hty, h1, hc, hb, hcmp, homeAcc, selStep]
          · simp [scanOne, hnr, hty, h1, hc, hb, hcmp, homeAcc, selStep]
    | gptSwap =>
      have hc : homeCand c = false := by simp [homeCand, hty]
      simp only [scanOne, hty, if_neg hnr, hc, if_false]
      by_cases h1 : hasFlag c.flags GPT_FLAG_NO_AUTO <;>
        by_cases h2 : hasFlag c.flags GPT_FLAG_READ_ONLY <;>
        simp [h1, h2, homeAcc]
    | gptEsp =>
      have hc : homeCand c = false := by simp [homeCand, hty]
      simp only [scanOne, hty, if_neg hnr, hc, if_false]
      by_cases h2 : st.boot.isSome ∧ st.boot_nr ≤ c.nr <;>
        simp [h2, homeAcc]
    | gptSrv =>
      have hc : homeCand c = false := by simp [homeCand, hty]
      simp only [scanOne, hty, if_neg hnr, hc, if_false]
      by_cases h1 : hasFlag c.flags GPT_FLAG_NO_AUTO <;>
        by_cases h2 : st.srv.isSome ∧ st.srv_nr ≤ c.nr <;>
        simp [h1, h2, homeAcc]
    | gptOther =>
      have hc : homeCand c = false := by simp [homeCand, hty]
      simp [scanOne, hnr, hty, hc]

theorem srvAcc_scanOne (st : ScanState) (c : Candidate) :
    srvAcc (scanOne st c) =
      if srvCand c then
        selStep (srvAcc st) ((c.node, !hasFlag c.flags GPT_FLAG_READ_ONLY), c.nr)
      else srvAcc st := by
  by_cases hnr : c.nr < 0
  · have : srvCand c = false := by
      simp [srvCand, not_le.mpr hnr]
    simp [scanOne, hnr, this]
  · cases hty : c.typeId with
    | gptSrv =>
      by_cases h1 : hasFlag c.flags GPT_FLAG_NO_AUTO
      · have hc : srvCand c = false := by simp [srvCand, h1]
        simp [scanOne, hnr, hty, h1, hc]
      · have hc : srvCand c = true := by
          simp [srvCand, hty, not_lt.mp hnr, h1]
        cases hb : st.srv with
        | none =>
          simp [scanOne, hnr, hty, h1, hc, hb, srvAcc, selStep]
        | some ns =>
          by_cases hcmp : st.srv_nr ≤ c.nr
          · simp [scanOne, hnr, hty, h1, hc, hb, hcmp, srvAcc, selStep]
          · simp [scanOne, hnr, hty, h1, hc, hb, hcmp, srvAcc, selStep]
    | gptSwap =>
      have hc : srvCand c = false := by simp [srvCand, hty]
      simp only [scanOne, hty, if_neg hnr, hc, if_false]
      by_cases h1 : hasFlag c.flags GPT_FLAG_NO_AUTO <;>
        by_cases h2 : hasFlag c.flags GPT_FLAG_READ_ONLY <;>
        simp [h1, h2, srvAcc]
    | gptEsp =>
      have hc : srvCand c = false := by simp [srvCand, hty]
      simp only [scanOne, hty, if_neg hnr, hc, if_false]
      by_cases h2 : st.boot.isSome ∧ st.boot_nr ≤ c.nr <;>
        simp [h2, srvAcc]
    | gptHome =>
      have hc : srvCand c = false := by simp [srvCand, hty]
      simp only [scanOne, hty, if_neg hnr, hc, if_false]
      by_cases h1 : hasFlag c.flags GPT_FLAG_NO_AUTO <;>
        by_cases h2 : st.home.isSome ∧ st.home_nr ≤ c.nr <;>
        simp [h1, h2, srvAcc]
    | gptOther =>
      have hc : srvCand c = false := by simp [srvCand, hty]
      simp [scanOne, hnr, hty, hc]

theorem bootAcc_foldl (l : List Candidate) (st : ScanState) :
    bootAcc (l.foldl scanOne st) =
      ((l.filter espCand).map (fun c => (c.node, c.nr))).foldl selStep
        (bootAcc st) := by
  induction l generalizing st with
  | nil => rfl
  | cons c l ih =>
    simp only [List.foldl_cons, List.filter_cons]
    by_cases hc : espCand c
    · simp only [hc, if_true, List.map_cons, List.foldl_cons]
      rw [ih, bootAcc_scanOne, if_pos hc]
    · have hg : espCand c = false := by simpa using hc
      rw [ih, bootAcc_scanOne]
      simp [hg]

theorem homeAcc_foldl (l : List Candidate) (st : ScanState) :
    homeAcc (l.foldl scanOne st) =
      ((l.filter homeCand).map
        (fun c => ((c.node, !hasFlag c.flags GPT_FLAG_READ_ONLY), c.nr))).foldl
        selStep (homeAcc st) := by
  induction l generalizing st with
  | nil => rfl
  | cons c l ih =>
    simp only [List.foldl_cons, List.filter_cons]
    by_cases hc : homeCand c
    · simp only [hc, if_true, List.map_cons, List.foldl_cons]
      rw [ih, homeAcc_scanOne, if_pos hc]
    · have hg : homeCand c = false := by simpa using hc
      rw [ih, homeAcc_scanOne]
      simp [hg]

theorem srvAcc_foldl (l : List Candidate) (st : ScanState) :
    srvAcc (l.foldl scanOne st) =
      ((l.filter srvCand).map
        (fun c => ((c.node, !hasFlag c.flags GPT_FLAG_READ_ONLY), c.nr))).foldl
        selStep (srvAcc st) := by
  induction l generalizing st with
  | nil => rfl
  | cons c l ih =>
    simp only [List.foldl_cons, List.filter_cons]
    by_cases hc : srvCand c
    · simp only [hc, if_true, List.map_cons, List.foldl_cons]
      rw [ih, srvAcc_scanOne, if_pos hc]
    · have hg : srvCand c = false := by simpa using hc
      rw [ih, srvAcc_scanOne]
      simp [hg]

theorem role_selection_block {α : Type} (f : Candidate → α) (p : Candidate → Bool)
    (l l2 : List Candidate) (hp : l.Perm l2)
    (hn : ((l.filter p).map Candidate.nr).Nodup) :
    (∀ w, minSel ((l.filter p).map (fun c => (f c, c.nr))) = some w →
        (∃ c, c ∈ l ∧ p c = true ∧ w = (f c, c.nr)) ∧
        ∀ c, c ∈ l → p c = true → w.2 ≤ c.nr) ∧
      (minSel ((l.filter p).map (fun c => (f c, c.nr))) = none ↔
        ∀ c, c ∈ l → p c = false) ∧
      minSel ((l.filter p).map (fun c => (f c, c.nr))) =
        minSel ((l2.filter p).map (fun c => (f c, c.nr))) := by
  refine ⟨?_, ?_, ?_⟩
  · intro w hw
    obtain ⟨hmem, hmin⟩ := minSel_spec hw
    constructor
    · obtain ⟨c, hc, hcw⟩ := List.mem_map.mp hmem
      obtain ⟨hcl, hcp⟩ := List.mem_filter.mp hc
      exact ⟨c, hcl, hcp, hcw.symm⟩
    · intro c hcl hcp
      have : (f c, c.nr) ∈ (l.filter p).map (fun c => (f c, c.nr)) :=
        List.mem_map.mpr ⟨c, List.mem_filter.mpr ⟨hcl, hcp⟩, rfl⟩
      exact hmin _ this
  · rw [minSel_eq_none, List.map_eq_nil_iff, List.filter_eq_nil_iff]
    constructor
    · intro h c hcl
      simpa using h c hcl
    · intro h c hcl
      simp [h c hcl]
  · apply minSel_perm ((hp.filter p).map _)
    have : ((l.filter p).map (fun c => (f c, c.nr))).map Prod.snd =
        (l.filter p).map Candidate.nr := by
      rw [List.map_map]
      rfl
    rw [this]
    exact hn

/-- C1: For every set of sibling partitions carrying the same role-qualifying
type GUID (Boot/ESP, Home, ServerData), the classifier of
`enumerate_partitions` selects exactly the candidate with the smallest
partition number among those not excluded by flags: every recorded winner is
an eligible candidate of the list whose partition number is minimal among the
eligible candidates, a role stays unassigned exactly when there is no
eligible candidate, and — under the GPT invariant that partition numbers of
eligible candidates are pairwise distinct — permuting the enumeration order
does not change the winner. -/
theorem C1_lowest_partition_number_wins (l l2 : List Candidate) (hp : l.Perm l2)
    (hb : ((l.filter espCand).map Candidate.nr).Nodup)
    (hh : ((l.filter homeCand).map Candidate.nr).Nodup)
    (hs : ((l.filter srvCand).map Candidate.nr).Nodup) :
    ((∀ w, bootAcc (enumerate_partitions_scan l) = some w →
        (∃ c, c ∈ l ∧ espCand c = true ∧ w = (c.node, c.nr)) ∧
        ∀ c, c ∈ l → espCand c = true → w.2 ≤ c.nr) ∧
      (bootAcc (enumerate_partitions_scan l) = none ↔
        ∀ c, c ∈ l → espCand c = false) ∧
      bootAcc (enumerate_partitions_scan l) =
        bootAcc (enumerate_partitions_scan l2)) ∧
    ((∀ w, homeAcc (enumerate_partitions_scan l) = some w →
        (∃ c, c ∈ l ∧ homeCand c = true ∧
          w = ((c.node, !hasFlag c.flags GPT_FLAG_READ_ONLY), c.nr)) ∧
        ∀ c, c ∈ l → homeCand c = true → w.2 ≤ c.nr) ∧
      (homeAcc (enumerate_partitions_scan l) = none ↔
        ∀ c, c ∈ l → homeCand c = false) ∧
      homeAcc (enumerate_partitions_scan l) =
        homeAcc (enumerate_partitions_scan l2)) ∧
    ((∀ w, srvAcc (enumerate_partitions_scan l) = some w →
        (∃ c, c ∈ l ∧ srvCand c = true ∧
          w = ((c.node, !hasFlag c.flags GPT_FLAG_READ_ONLY), c.nr)) ∧
        ∀ c, c ∈ l → srvCand c = true → w.2 ≤ c.nr) ∧
      (srvAcc (enumerate_partitions_scan l) = none ↔
        ∀ c, c ∈ l → srvCand c = false) ∧
      srvAcc (enumerate_partitions_scan l) =
        srvAcc (enumerate_partitions_scan l2)) := by
  have hboot : ∀ L : List Candidate, bootAcc (enumerate_partitions_scan L) =
      minSel ((L.filter espCand).map (fun c => (c.node, c.nr))) := by
    intro L
    rw [enumerate_partitions_scan, bootAcc_foldl]
    rfl
  have hhome : ∀ L : List Candidate, homeAcc (enumerate_partitions_scan L) =
      minSel ((L.filter homeCand).map
        (fun c => ((c.node, !hasFlag c.flags GPT_FLAG_READ_ONLY), c.nr))) := by
    intro L
    rw [enumerate_partitions_scan, homeAcc_foldl]
    rfl
  have hsrv : ∀ L : List Candidate, srvAcc (enumerate_partitions_scan L) =
      minSel ((L.filter srvCand).map
        (fun c => ((c.node, !hasFlag c.flags GPT_FLAG_READ_ONLY), c.nr))) := by
    intro L
    rw [enumerate_partitions_scan, srvAcc_foldl]
    rfl
  have Bb := role_selection_block (fun c => c.node) espCand l l2 hp hb
  have Bh := role_selection_block
    (fun c => (c.node, !hasFlag c.flags GPT_FLAG_READ_ONLY)) homeCand l l2 hp hh
  have Bs := role_selection_block
    (fun c => (c.node, !hasFlag c.flags GPT_FLAG_READ_ONLY)) srvCand l l2 hp hs
  refine ⟨⟨?_, ?_, ?_⟩, ⟨?_, ?_, ?_⟩, ⟨?_, ?_, ?_⟩⟩
  · intro w hw
    rw [hboot l] at hw
    exact Bb.1 w hw
  · rw [hboot l]
    exact Bb.2.1
  · rw [hboot l, hboot l2]
    exact Bb.2.2
  · intro w hw
    rw [hhome l] at hw
    exact Bh.1 w hw
  · rw [hhome l]
    exact Bh.2.1
  · rw [hhome l, hhome l2]
    exact Bh.2.2
  · intro w hw
    rw [hsrv l] at hw
    exact Bs.1 w hw
  · rw [hsrv l]
    exact Bs.2.1
  · rw [hsrv l, hsrv l2]
    exact Bs.2.2

/-- Witness for C1: on a disk enumerating the ESP-typed partitions numbered 2
then 1, and the same disk enumerated in the opposite order, the recorded boot
winner is the same. -/
theorem C1_lowest_partition_number_wins_witness :
    bootAcc (enumerate_partitions_scan
        [⟨2, .gptEsp, 0, "p2"⟩, ⟨1, .gptEsp, 0, "p1"⟩]) =
      bootAcc (enumerate_partitions_scan
        [⟨1, .gptEsp, 0, "p1"⟩, ⟨2, .gptEsp, 0, "p2"⟩]) :=
  (C1_lowest_partition_number_wins
    [⟨2, .gptEsp, 0, "p2"⟩, ⟨1, .gptEsp, 0, "p1"⟩]
    [⟨1, .gptEsp, 0, "p1"⟩, ⟨2, .gptEsp, 0, "p2"⟩]
    (by decide) (by decide) (by decide) (by decide)).1.2.2

/-- C2: the `no-auto` flag excludes a candidate from the Swap, Home and
ServerData roles (the loop iteration leaves the state unchanged), while for
the Boot/ESP role the flags — and hence `no-auto` — have no effect on
candidacy at all. -/
theorem C2_no_auto_excludes_all_but_boot (st : ScanState) (c : Candidate)
    (g : Nat) (h : hasFlag c.flags GPT_FLAG_NO_AUTO = true) :
    ((c.typeId = GptType.gptSwap ∨ c.typeId = GptType.gptHome ∨
        c.typeId = GptType.gptSrv) → scanOne st c = st) ∧
    (c.typeId = GptType.gptEsp →
      scanOne st c = scanOne st { c with flags := g }) := by
  constructor
  · intro hty
    rcases hty with hty | hty | hty <;>
      by_cases hnr : c.nr < 0 <;> simp [scanOne, hty, hnr, h]
  · intro hty
    by_cases hnr : c.nr < 0 <;> simp [scanOne, hty, hnr]

/-- Witness for C2: a swap-typed partition with `no-auto` set is dropped, and
an ESP-typed partition with `no-auto` set is classified exactly as the same
partition with all flags cleared. -/
theorem C2_no_auto_excludes_all_but_boot_witness :
    scanOne initScanState ⟨1, .gptSwap, 2 ^ 63, "s"⟩ = initScanState ∧
    scanOne initScanState ⟨1, .gptEsp, 2 ^ 63, "e"⟩ =
      scanOne initScanState { (⟨1, .gptEsp, 2 ^ 63, "e"⟩ : Candidate) with flags := 0 } :=
  ⟨(C2_no_auto_excludes_all_but_boot initScanState ⟨1, .gptSwap, 2 ^ 63, "s"⟩ 0
      (by decide)).1 (Or.inl rfl),
    (C2_no_auto_excludes_all_but_boot initScanState ⟨1, .gptEsp, 2 ^ 63, "e"⟩ 0
      (by decide)).2 rfl⟩

/-- C3: for a Home- or ServerData-typed candidate that becomes the role's
winner, the `read-only` flag maps to the `ro` option in the emitted mount
descriptor (and its absence to `rw`), while a Swap-typed candidate with the
`read-only` flag set is never selected: the loop iteration leaves the state —
including the list of `add_swap` invocations — unchanged, so no Swap
descriptor arises from it. -/
theorem C3_read_only_flag_mapping (st : ScanState) (c : Candidate)
    (dest : String) (ft : Option String) (post : Option String)
    (hnr : 0 ≤ c.nr) (hft : ft ≠ some "crypto_LUKS") :
    (c.typeId = GptType.gptHome → hasFlag c.flags GPT_FLAG_NO_AUTO = false →
      ¬(st.home.isSome ∧ st.home_nr ≤ c.nr) →
      (scanOne st c).home_rw = !hasFlag c.flags GPT_FLAG_READ_ONLY ∧
      ∃ m, probe_and_add_mount dest "home" c.node "/home"
          ((scanOne st c).home_rw) false .ok ft post = [Descriptor.mount m] ∧
        m.optionsLine =
          (if hasFlag c.flags GPT_FLAG_READ_ONLY then "ro" else "rw")) ∧
    (c.typeId = GptType.gptSrv → hasFlag c.flags GPT_FLAG_NO_AUTO = false →
      ¬(st.srv.isSome ∧ st.srv_nr ≤ c.nr) →
      (scanOne st c).srv_rw = !hasFlag c.flags GPT_FLAG_READ_ONLY ∧
      ∃ m, probe_and_add_mount dest "srv" c.node "/srv"
          ((scanOne st c).srv_rw) false .ok ft post = [Descriptor.mount m] ∧
        m.optionsLine =
          (if hasFlag c.flags GPT_FLAG_READ_ONLY then "ro" else "rw")) ∧
    (c.typeId = GptType.gptSwap → hasFlag c.flags GPT_FLAG_READ_ONLY = true →
      scanOne st c = st ∧ (scanOne st c).swapAdds = st.swapAdds) := by
  have hnr2 : ¬c.nr < 0 := not_lt.mpr hnr
  refine ⟨?_, ?_, ?_⟩
  · intro hty hna hguard
    have hrw : (scanOne st c).home_rw = !hasFlag c.flags GPT_FLAG_READ_ONLY := by
      simp [scanOne, hty, hna, hguard, hnr2]
    refine ⟨hrw, ?_⟩
    rw [hrw]
    refine ⟨{ unit := unit_name_from_path "/home" ".mount",
              what := c.node, whereDir := "/home", fstype := ft,
              optionsLine := mountOptions none (!hasFlag c.flags GPT_FLAG_READ_ONLY),
              beforeTarget := post,
              requiresLink := post.map (fun t =>
                dest ++ "/" ++ t ++ ".requires/" ++
                  unit_name_from_path "/home" ".mount") }, ?_, ?_⟩
    · simp [probe_and_add_mount, add_mount, hft]
    · cases hro : hasFlag c.flags GPT_FLAG_READ_ONLY <;>
        simp [mountOptions, hro]
  · intro hty hna hguard
    have hrw : (scanOne st c).srv_rw = !hasFlag c.flags GPT_FLAG_READ_ONLY := by
      simp [scanOne, hty, hna, hguard, hnr2]
    refine ⟨hrw, ?_⟩
    rw [hrw]
    refine ⟨{ unit := unit_name_from_path "/srv" ".mount",
              what := c.node, whereDir := "/srv", fstype := ft,
              optionsLine := mountOptions none (!hasFlag c.flags GPT_FLAG_READ_ONLY),
              beforeTarget := post,
              requiresLink := post.map (fun t =>
                dest ++ "/" ++ t ++ ".requires/" ++
                  unit_name_from_path "/srv" ".mount") }, ?_, ?_⟩
    · simp [probe_and_add_mount, add_mount, hft]
    · cases hro : hasFlag c.flags GPT_FLAG_READ_ONLY <;>
        simp [mountOptions, hro]
  · intro hty hro
    by_cases hna : hasFlag c.flags GPT_FLAG_NO_AUTO <;>
      simp [scanOne, hty, hnr2, hna, hro]

/-- Witness for C3: a read-only Home winner gets the `ro` option, and a
read-only Swap candidate leaves the state untouched. -/
theorem C3_read_only_flag_mapping_witness :
    ((scanOne initScanState ⟨3, .gptHome, 2 ^ 60, "h"⟩).home_rw =
        !hasFlag (2 ^ 60) GPT_FLAG_READ_ONLY ∧
      ∃ m, probe_and_add_mount "/run/units" "home" "h" "/home"
          ((scanOne initScanState ⟨3, .gptHome, 2 ^ 60, "h"⟩).home_rw)
          false .ok (some "ext4") (some SPECIAL_LOCAL_FS_TARGET) =
            [Descriptor.mount m] ∧
        m.optionsLine =
          (if hasFlag (2 ^ 60) GPT_FLAG_READ_ONLY then "ro" else "rw")) ∧
      scanOne initScanState ⟨4, .gptSwap, 2 ^ 60, "s"⟩ = initScanState :=
  ⟨(C3_read_only_flag_mapping initScanState ⟨3, .gptHome, 2 ^ 60, "h"⟩
      "/run/units" (some "ext4") (some SPECIAL_LOCAL_FS_TARGET)
      (by decide) (by decide)).1 rfl (by decide) (by decide),
    ((C3_read_only_flag_mapping initScanState ⟨4, .gptSwap, 2 ^ 60, "s"⟩
      "/run/units" (some "ext4") (some SPECIAL_LOCAL_FS_TARGET)
      (by decide) (by decide)).2.2 rfl (by decide)).1⟩

/-- C4: a Boot descriptor is emitted only when the firmware-reported boot
partition GUID is exactly the candidate's parsed partition-entry UUID, the
probed filesystem type is the FAT family (`vfat`), and the partition-entry
UUID parses; and once the validation stage is reached (loader GUID known,
probe definite), a present non-FAT type, a missing or unparseable
partition-entry UUID, or any equality mismatch yields the skip outcome, not
an error. -/
theorem C4_boot_validation (parse : String → Option Nat) (what : String)
    (env : BootEnv) :
    (∀ a, add_boot parse what env = .emitted a →
      env.fstype = some "vfat" ∧
      ∃ u tid, env.partUuid = some u ∧ parse u = some tid ∧
        env.loader = .found tid) ∧
    (∀ idv, env.loader = .found idv → env.probe = .ok →
      (∀ t, env.fstype = some t → t ≠ "vfat" →
        add_boot parse what env = .skipped) ∧
      (env.fstype = some "vfat" → env.partUuid = none →
        add_boot parse what env = .skipped) ∧
      (∀ u, env.fstype = some "vfat" → env.partUuid = some u → parse u = none →
        add_boot parse what env = .skipped) ∧
      (∀ u tid, env.fstype = some "vfat" → env.partUuid = some u →
        parse u = some tid → tid ≠ idv →
        add_boot parse what env = .skipped)) := by
  obtain ⟨e1, e2, e3, e4, e5, el, ep, ef, eu⟩ := env
  constructor
  · intro a h
    cases e1 with
    | false => exact absurd h (by simp [add_boot])
    | true =>
      cases e2 with
      | true => exact absurd h (by simp [add_boot])
      | false =>
        cases e3 with
        | true => exact absurd h (by simp [add_boot])
        | false =>
          cases e4 with
          | true => exact absurd h (by simp [add_boot])
          | false =>
            cases e5 with
            | true => exact absurd h (by simp [add_boot])
            | false =>
              cases el with
              | unknown => exact absurd h (by simp [add_boot])
              | ioError e => exact absurd h (by simp [add_boot])
              | found idv =>
                cases ep with
                | noResult => exact absurd h (by simp [add_boot])
                | hardError e => exact absurd h (by simp [add_boot])
                | ok =>
                  cases ef with
                  | none => exact absurd h (by simp [add_boot])
                  | some t =>
                    by_cases ht : t ≠ "vfat"
                    · exact absurd h (by simp [add_boot, ht])
                    · push_neg at ht
                      subst ht
                      cases eu with
                      | none => exact absurd h (by simp [add_boot])
                      | some u =>
                        cases hpu : parse u with
                        | none => exact absurd h (by simp [add_boot, hpu])
                        | some tid =>
                          by_cases heq : tid = idv
                          · subst heq
                            exact ⟨rfl, u, tid, rfl, hpu, rfl⟩
                          · exact absurd h (by simp [add_boot, hpu, heq])
  · intro idv hl hpr
    dsimp only at hl hpr
    subst hl
    subst hpr
    refine ⟨?_, ?_, ?_, ?_⟩
    · intro t hft ht
      dsimp only at hft
      subst hft
      cases e1 <;> cases e2 <;> cases e3 <;> cases e4 <;> cases e5 <;>
        simp [add_boot, ht]
    · intro hft hu
      dsimp only at hft hu
      subst hft
      subst hu
      cases e1 <;> cases e2 <;> cases e3 <;> cases e4 <;> cases e5 <;>
        simp [add_boot]
    · intro u hft hu hpu
      dsimp only at hft hu
      subst hft
      subst hu
      cases e1 <;> cases e2 <;> cases e3 <;> cases e4 <;> cases e5 <;>
        simp [add_boot, hpu]
    · intro u tid hft hu hpu heq
      dsimp only at hft hu
      subst hft
      subst hu
      cases e1 <;> cases e2 <;> cases e3 <;> cases e4 <;> cases e5 <;>
        simp [add_boot, hpu, heq]

/-- Witness for C4: with the firmware reporting GUID 7 but the candidate's
partition-entry UUID parsing to 5, the Boot role is skipped. -/
theorem C4_boot_validation_witness :
    add_boot (fun u => if u = "u-5" then some 5 else none) "/dev/sda1"
      { isEfiBoot := true, inInitrd := false, inContainer := false,
        fstabHasBoot := false, bootBusy := false, loader := .found 7,
        probe := .ok, fstype := some "vfat", partUuid := some "u-5" } =
      .skipped :=
  ((C4_boot_validation (fun u => if u = "u-5" then some 5 else none) "/dev/sda1"
      { isEfiBoot := true, inInitrd := false, inContainer := false,
        fstabHasBoot := false, bootBusy := false, loader := .found 7,
        probe := .ok, fstype := some "vfat", partUuid := some "u-5" }).2 7
      rfl rfl).2.2.2 "u-5" 5 rfl rfl (by simp) (by decide)

/-- C5: when a role's winning partition probes as a LUKS container,
`add_mount` produces exactly two descriptors: the crypto-unlock descriptor —
with unbounded unlock timeout (`TimeoutSec=0`), an unbounded job timeout
drop-in for the mapped device (`JobTimeoutSec=0`), and the `.device.requires`
edge binding the mapped device to the unlock service, which orders the unlock
before the mount of that device — and a mount descriptor whose source is the
mapped identity `/dev/mapper/<id>` instead of the raw partition, with no
filesystem type hint. -/
theorem C5_luks_two_descriptors (dest id what whereDir : String) (rw : Bool)
    (options post : Option String) :
    ∃ c m,
      add_mount dest id what whereDir (some "crypto_LUKS") rw options post =
        [Descriptor.cryptoUnlock c, Descriptor.mount m] ∧
      c = add_cryptsetup dest id what rw ∧
      c.timeoutSec = 0 ∧
      c.jobTimeoutSec = 0 ∧
      c.device = "/dev/mapper/" ++ id ∧
      c.mapperDeviceRequiresLink =
        dest ++ "/dev-mapper-" ++ unit_name_escape id ++ ".device.requires/" ++
          c.serviceUnit ∧
      m.what = c.device ∧
      m.fstype = none := by
  refine ⟨add_cryptsetup dest id what rw,
    { unit := unit_name_from_path whereDir ".mount",
      what := (add_cryptsetup dest id what rw).device,
      whereDir := whereDir, fstype := none,
      optionsLine := mountOptions options rw, beforeTarget := post,
      requiresLink := post.map (fun t =>
        dest ++ "/" ++ t ++ ".requires/" ++ unit_name_from_path whereDir ".mount") },
    ?_, rfl, rfl, rfl, rfl, rfl, rfl, rfl⟩
  simp [add_mount]

/-- C6 counterexample: at a target path that is already an active mount point
(`path_is_mount_point` returned 1, `dir_is_empty` would report non-empty),
the code classifies the path as NOT busy, while the claim's classification
(`busySpec`) calls it busy. -/
theorem C6_mount_point_not_busy_counterexample :
    path_is_busy 1 0 = false ∧ busySpec 1 0 = true := by
  constructor <;> rfl

/-- C6 amended: `path_is_busy` classifies a path as busy exactly when the
mount-point check fails with an error other than `-ENOENT`, or when the path
exists, is not a mount point, and `dir_is_empty` reports it non-empty or
fails; an active mount point — like a nonexistent path — is classified not
busy (the source deliberately regenerates over an existing mount point, as
generators rerun during reload). -/
theorem C6_busy_classification (mpRes de : Int) :
    path_is_busy mpRes de = true ↔
      ((mpRes < 0 ∧ mpRes ≠ -ENOENT) ∨ (mpRes = 0 ∧ de ≤ 0)) := by
  unfold path_is_busy ENOENT
  split_ifs with h1 h2 h3 h4 <;> simp <;> omega

/-- C7 counterexample: with an artifact of the same identity already present
at the intake location, creating the crypto-related device drop-in does not
fail — `write_string_file(..., WRITE_STRING_FILE_CREATE)` silently truncates
and rewrites it — contradicting the claim that every artifact creation fails
in that situation. -/
theorem C7_drop_in_overwrites_counterexample :
    createArtifact true Artifact.deviceDropIn = CreateOutcome.wrote := by
  decide

/-- C7 amended: the four unit artifacts (mount, swap, automount,
crypto-unlock service) are created with exclusive-create semantics (`fopen`
mode `"wxe"`), so with an existing artifact of the same identity their
creation fails rather than overwriting; the crypto-related device drop-in is
the exception — it is written with plain create semantics and silently
replaces existing content. -/
theorem C7_exclusive_create (a : Artifact) :
    (a ≠ Artifact.deviceDropIn →
      createArtifact true a = CreateOutcome.failedExists) ∧
    createArtifact true Artifact.deviceDropIn = CreateOutcome.wrote := by
  constructor
  · intro h
    cases a with
    | deviceDropIn => exact absurd rfl h
    | mountUnit => decide
    | swapUnit => decide
    | automountUnit => decide
    | cryptsetupUnit => decide
  · decide

/-- Witness for C7: the mount unit's creation fails when a unit of the same
identity already exists. -/
theorem C7_exclusive_create_witness :
    createArtifact true Artifact.mountUnit = CreateOutcome.failedExists :=
  (C7_exclusive_create Artifact.mountUnit).1 (by decide)

/-- C8 (the code evaluated at a failing input): a swap partition whose
`add_swap` fails hard (result -5, recorded into `r` by `k = add_swap(...);
if (k < 0) r = k;`) followed in scan order by an eligible home partition.
The home branch then executes `r = free_and_strdup(&home, subnode)`, which
overwrites the recorded failure with 1, and with the remaining role calls
succeeding the pass's final result is 1 — success — although a hard failure
was recorded during the pass.  The claim (and spec section 5) requires the
earlier role failure to still be reflected in the final result. -/
theorem C8_swap_failure_clobbered :
    (({ swapRes := fun n => if n = "/dev/sda2" then -5 else 0,
        bootRes := 0, homeRes := 0, srvRes := 0 } : EnumEffects).swapRes
          "/dev/sda2" = -5) ∧
    enumerate_partitions_res
      { swapRes := fun n => if n = "/dev/sda2" then -5 else 0,
        bootRes := 0, homeRes := 0, srvRes := 0 }
      [⟨2, .gptSwap, 0, "/dev/sda2"⟩, ⟨3, .gptHome, 0, "/dev/sda3"⟩] = 1 := by
  constructor
  · decide
  · decide

/-- C9: `main` accepts zero arguments (`argc ≤ 1`) or exactly three
positional arguments (`argc = 4`); any other count returns the non-success
`EXIT_FAILURE` with a result independent of every probing outcome.
Otherwise the exit status is `EXIT_SUCCESS` whenever no role-processing step
recorded a hard failure (skips — container, disabled switch, per-role skips
returning 0 — never produce a failure status), and `EXIT_FAILURE` when
`add_mounts` or `add_root_mount` recorded a hard failure. -/
theorem C9_entry_contract (argc : Nat) (env env2 : MainEnv) :
    (argc > 1 ∧ argc ≠ 4 →
      main_model argc env = EXIT_FAILURE ∧
      main_model argc env = main_model argc env2) ∧
    (¬(argc > 1 ∧ argc ≠ 4) →
      (env.inContainer = true → main_model argc env = EXIT_SUCCESS) ∧
      (env.enabled = false → main_model argc env = EXIT_SUCCESS) ∧
      (0 ≤ env.rootMountRes → 0 ≤ env.addMountsRes →
        main_model argc env = EXIT_SUCCESS) ∧
      (env.inContainer = false → env.enabled = true → env.inInitrd = false →
        env.addMountsRes < 0 → main_model argc env = EXIT_FAILURE) ∧
      (env.inContainer = false → env.enabled = true → env.rootEnabled = true →
        env.rootMountRes < 0 → main_model argc env = EXIT_FAILURE)) := by
  obtain ⟨c1, en, re, ii, rr, ar⟩ := env
  constructor
  · intro h
    constructor <;> simp [main_model, h]
  · intro h
    refine ⟨?_, ?_, ?_, ?_, ?_⟩
    · intro hc
      dsimp only at hc
      subst hc
      simp [main_model, h, EXIT_SUCCESS]
    · intro he
      dsimp only at he
      subst he
      cases c1 <;> simp [main_model, h, EXIT_SUCCESS]
    · intro h1 h2
      dsimp only at h1 h2
      cases c1 <;> cases en <;> cases re <;> cases ii <;>
        simp [main_model, h, EXIT_SUCCESS, EXIT_FAILURE] <;>
        (try split_ifs) <;> omega
    · intro hc he hi ha
      dsimp only at hc he hi ha
      subst hc
      subst he
      subst hi
      simp [main_model, h, ha, EXIT_FAILURE]
    · intro hc he hre hr
      dsimp only at hc he hre hr
      subst hc
      subst he
      subst hre
      cases ii <;> simp [main_model, h, hr, EXIT_FAILURE] <;> omega

/-- Witness for C9: two arguments (`argc = 3`) is a usage error, whatever the
probing outcomes. -/
theorem C9_entry_contract_witness :
    main_model 3 { inContainer := false, enabled := true, rootEnabled := true,
                   inInitrd := false, rootMountRes := 0, addMountsRes := 0 } =
      EXIT_FAILURE ∧
    main_model 3 { inContainer := false, enabled := true, rootEnabled := true,
                   inInitrd := false, rootMountRes := 0, addMountsRes := 0 } =
      main_model 3 { inContainer := true, enabled := false,
                     rootEnabled := false, inInitrd := true,
                     rootMountRes := -7, addMountsRes := -9 } :=
  (C9_entry_contract 3
    { inContainer := false, enabled := true, rootEnabled := true,
      inInitrd := false, rootMountRes := 0, addMountsRes := 0 }
    { inContainer := true, enabled := false, rootEnabled := false,
      inInitrd := true, rootMountRes := -7, addMountsRes := -9 }).1
    (by decide)

/-- C10 (the code evaluated at the failing input): with every guard passed
and the partition probe definite, a `TYPE` lookup that yields no value leaves
`fstype` NULL, and line 526 runs `streq(fstype, "vfat")` — a NULL-pointer
dereference, modelled as the `.crash` outcome — rather than the well-defined
skip the claim requires. -/
theorem C10_null_fstype_comparison :
    add_boot (fun _ => none) "/dev/sda1"
      { isEfiBoot := true, inInitrd := false, inContainer := false,
        fstabHasBoot := false, bootBusy := false, loader := .found 0,
        probe := .ok, fstype := none, partUuid := none } =
      BootOutcome.crash := by
  rfl

end GptAuto
